import Mathlib

/-!
Shallow embedding of the monorepo fanout automation scripts
(`.github/scripts/` of the repository) and verification of the
specification's claims about them.

The scripts are short linear sequences of GitHub API / CLI calls.  We embed
them as pure Lean functions over an explicit remote-world state: reads are
lookups in the world, mutating calls are recorded as `Effect`s, and Python
exceptions are an `Option PyError` result.  Python `dict.get` on fields that
may be absent or JSON `null` is modelled with `Option (Option String)`
(`none` = key absent, `some none` = null, `some (some s)` = string).
-/

/-- Modelled from the spec: `repo_config_model.RepoEntry` (the module is not
in the source tree; §3 of the spec defines SubtreeEntry as
`{category, name, url: org/repo, branch}`). -/
structure RepoEntry where
  category : String
  name : String
  url : String
  branch : String
deriving DecidableEq

/-- `utils_fanout_naming.FanoutNaming.compute_branch_name` (lines 43-45):
`f"monorepo-pr/{pr_number}/{name}"`.  Used by `pr_reflect_checks.py` line 61. -/
def compute_branch_name (pr_number : Nat) (name : String) : String :=
  "monorepo-pr/" ++ Nat.repr pr_number ++ "/" ++ name

/-- The branch-name template written inline in `pr_fanout.py` line 86,
`pr_close_fanouts.py` line 55 and `pr_fanout_sync_labels.py` line 47:
`f"monorepo-pr-{pr}-{entry.name}"`. -/
def fanoutBranchName (pr : Nat) (name : String) : String :=
  "monorepo-pr-" ++ Nat.repr pr ++ "-" ++ name

/-- `pr_fanout.py` line 89: the mirrored PR's title. -/
def fanoutPrTitle (pr : Nat) (name : String) : String :=
  "[DO NOT MERGE] [Fanout] [Monorepo] PR #" ++ Nat.repr pr ++ " to " ++ name

/-- `pr_fanout.py` lines 90-94: the mirrored PR's body. -/
def fanoutPrBody (pr : Nat) (category name repo : String) : String :=
  "This is an automated PR for subtree `" ++ category ++ "/" ++ name ++
  "` originating from monorepo PR [#" ++ Nat.repr pr ++ "](https://github.com/" ++
  repo ++ "/pull/" ++ Nat.repr pr ++
  "). PLEASE DO NOT MERGE OR TOUCH THIS PR, AUTOMATED WORKFLOWS FROM THE MONOREPO ARE USING IT."

/-- `pr_fanout.py` line 88: `f"https://github.com/{entry.url}.git"`. -/
def subrepoFullUrl (url : String) : String :=
  "https://github.com/" ++ url ++ ".git"

/-- A positional argument of a Python call (used to model the call to
`upsert_check_run`, whose arity the caller gets wrong). -/
inductive PyArg where
  | str (s : String)
  | int (n : Nat)
  | optStr (s : Option String)
deriving DecidableEq

/-- A mutating remote call issued by a script: one constructor per mutating
operation of `GitHubCLIClient` / `GitHubAPIClient` plus `git subtree push`. -/
inductive Effect where
  | subtreePush (url branch : String)
  | prCreate (repo base head title body : String)
  | prClose (repo : String) (prNumber : Nat)
  | deleteRef (repo ref : String)
  | addLabels (repo : String) (prNumber : Nat) (labels : List String)
  | upsertCall (args : List PyArg)
deriving DecidableEq

/-- A Python exception escaping a script. -/
inductive PyError where
  | calledProcessError
  | typeError
deriving DecidableEq

/-- Is this effect a PR creation? -/
def Effect.isCreate : Effect → Bool
  | .prCreate _ _ _ _ _ => true
  | _ => false

/-- An open pull request as the scripts see it: number, title, body. -/
structure PRView where
  number : Nat
  title : String
  body : String
deriving DecidableEq

/-- The remote state read and written by `pr_fanout.py`: whether a
`git subtree push` to (clone url, branch) succeeds, whether `gh pr create`
succeeds for (repo, head branch), the open PR found by head branch, and the
number GitHub will assign to the next created PR. -/
structure FanoutWorld where
  pushOk : String → String → Bool
  createOk : String → String → Bool
  openPR : String → String → Option PRView
  nextNumber : Nat

/-- `pr_fanout.get_subtree_info` (lines 46-56): config entries whose
`category/name` is among the requested subtrees. -/
def get_subtree_info (config : List RepoEntry) (subtrees : List String) : List RepoEntry :=
  config.filter (fun entry => decide ((entry.category ++ "/" ++ entry.name) ∈ subtrees))

/-- `pr_fanout.subtree_push` (lines 58-73): runs `git subtree push` unless
`dry_run`; a non-zero exit raises `CalledProcessError` (`check=True`). -/
def subtree_push (branch url : String) (dry_run : Bool)
    (pushOk : String → String → Bool) : List Effect × Option PyError :=
  if dry_run then ([], none)
  else if pushOk url branch then ([Effect.subtreePush url branch], none)
  else ([], some PyError.calledProcessError)

/-- One iteration of the loop in `pr_fanout.main` (lines 85-105): push the
subtree, look the PR up by branch (`client.pr_view`), and create it only when
absent and not in dry-run.  Returns (effects, raised error, updated world). -/
def fanoutEntryStep (repo : String) (pr : Nat) (dry_run : Bool) (entry : RepoEntry)
    (w : FanoutWorld) : List Effect × Option PyError × FanoutWorld :=
  let branch := fanoutBranchName pr entry.name
  let url := subrepoFullUrl entry.url
  let pr_title := fanoutPrTitle pr entry.name
  let pr_body := fanoutPrBody pr entry.category entry.name repo
  match subtree_push branch url dry_run w.pushOk with
  | (effs, some e) => (effs, some e, w)
  | (effs, none) =>
    let pr_exists := (w.openPR entry.url branch).isSome
    if pr_exists then (effs, none, w)
    else if dry_run then (effs, none, w)
    else if w.createOk entry.url branch then
      (effs ++ [Effect.prCreate entry.url entry.branch branch pr_title pr_body], none,
       { w with
         openPR := fun r h =>
           if r = entry.url ∧ h = branch then
             some { number := w.nextNumber, title := pr_title, body := pr_body }
           else w.openPR r h,
         nextNumber := w.nextNumber + 1 })
    else (effs, some PyError.calledProcessError, w)

/-- The `for entry in relevant_subtrees` loop of `pr_fanout.main`: the first
raised exception propagates and aborts the whole run (the loop body has no
try/except). -/
def fanoutLoop (repo : String) (pr : Nat) (dry_run : Bool) :
    List RepoEntry → FanoutWorld → List Effect × Option PyError × FanoutWorld
  | [], w => ([], none, w)
  | entry :: rest, w =>
    match fanoutEntryStep repo pr dry_run entry w with
    | (effs, some e, w') => (effs, some e, w')
    | (effs, none, w') =>
      match fanoutLoop repo pr dry_run rest w' with
      | (effs2, e2, w'') => (effs ++ effs2, e2, w'')

/-- `pr_fanout.main` (lines 75-105). -/
def fanoutMain (repo : String) (pr : Nat) (subtrees : List String)
    (config : List RepoEntry) (dry_run : Bool) (w : FanoutWorld) :
    List Effect × Option PyError × FanoutWorld :=
  fanoutLoop repo pr dry_run (get_subtree_info config subtrees) w

namespace GitHubAPIClient

/-- `github_api_client.GitHubAPIClient.close_pr_and_delete_branch`
(lines 178-185): PATCH `pulls/{pr_number}` to state closed, then DELETE
`git/refs/heads/{pr_number}` — the deleted ref is the decimal PR number, not
the PR's head branch.  The method has no dry-run parameter. -/
def close_pr_and_delete_branch (repo : String) (pr_number : Nat) : List Effect :=
  [Effect.prClose repo pr_number, Effect.deleteRef repo (Nat.repr pr_number)]

end GitHubAPIClient

/-- The `for entry in config` loop of `pr_close_fanouts.main` (lines 54-62):
look the mirrored PR up by the dash-template branch; when found, close it and
delete "its branch"; when absent, log and continue.  `args.dry_run` is parsed
(line 42) but never consulted, so the dry-run flag is threaded through here
and — faithfully to the source — never read. -/
def closeFanoutsLoop (pr : Nat) (dry_run : Bool) :
    List RepoEntry → (String → String → Option PRView) → List Effect
  | [], _ => []
  | entry :: rest, openPR =>
    let branch := fanoutBranchName pr entry.name
    match openPR entry.url branch with
    | some prv =>
      GitHubAPIClient.close_pr_and_delete_branch entry.url prv.number ++
        closeFanoutsLoop pr dry_run rest (fun r h =>
          match openPR r h with
          | some q => if r = entry.url ∧ q.number = prv.number then none else some q
          | none => none)
    | none => closeFanoutsLoop pr dry_run rest openPR

/-- `pr_close_fanouts.main` (lines 46-62). -/
def closeFanoutsMain (pr : Nat) (config : List RepoEntry) (dry_run : Bool)
    (openPR : String → String → Option PRView) : List Effect :=
  closeFanoutsLoop pr dry_run config openPR

/-- The value of a JSON object key that may be absent (`none`), present but
null (`some none`), or a string (`some (some s)`). -/
abbrev JsonStrField : Type := Option (Option String)

/-- Python `d.get(key, default)` on a `JsonStrField`: the default fires only
when the key is absent; a present null stays `None`. -/
def pyGetD (v : JsonStrField) (dflt : String) : Option String :=
  match v with
  | none => some dflt
  | some x => x

/-- Python `d.get(key)` (default `None`) on a `JsonStrField`. -/
def pyGet (v : JsonStrField) : Option String :=
  match v with
  | none => none
  | some x => x

/-- The `output` object of a check run, as read via
`check.get("output", {}).get("summary", ...)`. -/
structure CheckOutput where
  summary : JsonStrField
deriving DecidableEq

/-- A check run as fetched from the GitHub API and consumed by
`pr_reflect_checks.main` (lines 67-79): `name` and `status` are indexed
directly, the rest through `.get`. -/
structure CheckRun where
  name : String
  status : String
  conclusion : JsonStrField
  details_url : JsonStrField
  output : Option CheckOutput
deriving DecidableEq

/-- `pr_reflect_checks.main` line 72:
`check.get("output", {}).get("summary", "")`. -/
def checkSummary (c : CheckRun) : Option String :=
  match c.output with
  | none => some ""
  | some o => pyGetD o.summary ""

/-- `pr_reflect_checks.main` line 78 applied to the existing synthetic check:
`existing.get("output", {}).get("summary")` — note the missing default, unlike
line 72. -/
def existingSummary (c : CheckRun) : Option String :=
  match c.output with
  | none => none
  | some o => pyGet o.summary

/-- `pr_reflect_checks.main` lines 55-58: the dict comprehension
`{check["name"]: check for check in ...}`; a later check with the same name
overwrites an earlier one. -/
def checksByName (checks : List CheckRun) : String → Option CheckRun :=
  checks.foldl (fun m c => fun k => if k = c.name then some c else m k) (fun _ => none)

/-- `pr_reflect_checks.main` lines 74-79: the freshly fetched check needs an
upsert when no synthetic check exists yet or status, conclusion or summary
differ. -/
def needs_update (existing : Option CheckRun) (status : String)
    (conclusion summary : Option String) : Bool :=
  match existing with
  | none => true
  | some ex =>
    decide (ex.status ≠ status) || decide (pyGet ex.conclusion ≠ conclusion) ||
      decide (existingSummary ex ≠ summary)

/-- The number of positional parameters of
`GitHubAPIClient.upsert_check_run` after `self` (lines 208-210): repo, name,
sha, status, details_url, conclusion, completed_at, title, summary. -/
def upsertCheckRunParamCount : Nat := 9

/-- Python's call protocol, arity only: calling a function with fewer
positional arguments than its required parameters raises `TypeError` before
the body runs. -/
def pyCallArity (required : Nat) (args : List PyArg) : Option PyError :=
  if args.length = required then none else some PyError.typeError

/-- The argument list of the call `client.upsert_check_run(args.repo,
synthetic_name, args.pr, status, details_url, conclusion, summary)` at
`pr_reflect_checks.main` lines 85-88 — seven positional arguments. -/
def reflectUpsertArgs (repoArg : String) (synthetic_name : String) (prArg : Nat)
    (status : String) (details_url conclusion summary : Option String) : List PyArg :=
  [PyArg.str repoArg, PyArg.str synthetic_name, PyArg.int prArg, PyArg.str status,
   PyArg.optStr details_url, PyArg.optStr conclusion, PyArg.optStr summary]

/-- The `for check in checks` loop of `pr_reflect_checks.main`
(lines 67-88): skip unchanged checks; otherwise, unless in dry-run, call
`upsert_check_run` — which raises `TypeError`, since seven arguments are
passed where `upsertCheckRunParamCount` are required. -/
def reflectChecksLoop (repoArg : String) (prArg : Nat) (dry_run : Bool)
    (monoChecks : String → Option CheckRun) (subtreeName : String) :
    List CheckRun → List Effect × Option PyError
  | [] => ([], none)
  | check :: rest =>
    let synthetic_name := subtreeName ++ ": " ++ check.name
    let status := check.status
    let conclusion := pyGetD check.conclusion "neutral"
    let details_url := pyGetD check.details_url ""
    let summary := checkSummary check
    let existing := monoChecks synthetic_name
    if needs_update existing status conclusion summary then
      if dry_run then reflectChecksLoop repoArg prArg dry_run monoChecks subtreeName rest
      else
        let args := reflectUpsertArgs repoArg synthetic_name prArg status details_url
          conclusion summary
        match pyCallArity upsertCheckRunParamCount args with
        | some e => ([], some e)
        | none =>
          match reflectChecksLoop repoArg prArg dry_run monoChecks subtreeName rest with
          | (effs, err) => (Effect.upsertCall args :: effs, err)
    else reflectChecksLoop repoArg prArg dry_run monoChecks subtreeName rest

/-- The remote state read by `pr_reflect_checks.main`: the check runs on the
monorepo PR's head branch, the open PR by (repo, head branch), and the check
runs for a (repo, ref). -/
structure ReflectWorld where
  monorepoChecks : List CheckRun
  openPR : String → String → Option PRView
  checkRunsFor : String → String → List CheckRun

/-- The `for entry in config` loop of `pr_reflect_checks.main`
(lines 59-88): derive the branch with `compute_branch_name`, skip entries
without an open mirrored PR, and reflect that PR's check runs; an exception
aborts the run. -/
def reflectEntriesLoop (repoArg : String) (prArg : Nat) (dry_run : Bool)
    (w : ReflectWorld) (monoChecks : String → Option CheckRun) :
    List RepoEntry → List Effect × Option PyError
  | [] => ([], none)
  | entry :: rest =>
    let branch := compute_branch_name prArg entry.name
    match w.openPR entry.url branch with
    | none => reflectEntriesLoop repoArg prArg dry_run w monoChecks rest
    | some _ =>
      match reflectChecksLoop repoArg prArg dry_run monoChecks entry.name
        (w.checkRunsFor entry.url branch) with
      | (effs, some e) => (effs, some e)
      | (effs, none) =>
        match reflectEntriesLoop repoArg prArg dry_run w monoChecks rest with
        | (effs2, e2) => (effs ++ effs2, e2)

/-- `pr_reflect_checks.main` (lines 46-88). -/
def reflectMain (repoArg : String) (prArg : Nat) (config : List RepoEntry)
    (dry_run : Bool) (w : ReflectWorld) : List Effect × Option PyError :=
  reflectEntriesLoop repoArg prArg dry_run w (checksByName w.monorepoChecks) config

/-- Python `x or y` for `x` a string or `None`: `y` when `x` is `None` or
empty. -/
def pyOrStr (v : Option String) (dflt : String) : String :=
  match v with
  | none => dflt
  | some s => if s = "" then dflt else s

/-- The payload built by `GitHubAPIClient._generate_check_run_payload`
(lines 83-98); `output` is flattened into `output_title`/`output_summary`. -/
structure CheckRunPayload where
  name : String
  head_sha : String
  status : String
  details_url : Option String
  conclusion : Option String
  completed_at : Option String
  output_title : String
  output_summary : String
deriving DecidableEq

/-- `GitHubAPIClient._generate_check_run_payload` (lines 83-98): conclusion
and completed_at are forced to the empty string unless the status is
"completed"; title falls back to the name, summary to the empty string. -/
def generate_check_run_payload (name head_sha status : String)
    (details_url conclusion completed_at title summary : Option String) :
    CheckRunPayload :=
  { name := name
    head_sha := head_sha
    status := status
    details_url := details_url
    conclusion := if status = "completed" then conclusion else some ""
    completed_at := if status = "completed" then completed_at else some ""
    output_title := pyOrStr title name
    output_summary := pyOrStr summary "" }

/-- The remote state read and written by `pr_fanout_sync_labels.py`: current
labels of a (repo, PR number), each repo's defined label vocabulary, and the
open PR number by (repo, head branch) (`client.pr_view`). -/
structure LabelWorld where
  prLabels : String → Nat → List String
  definedLabels : String → List String
  openPR : String → String → Option Nat

namespace GitHubCLIClient

/-- `github_cli_client.GitHubCLIClient.sync_labels` (lines 121-143): fetch
the target repo's defined labels, intersect with the given labels, and run
`gh pr edit --add-label` unless in dry-run.  Python sets are modelled as
lists read up to membership. -/
def sync_labels (w : LabelWorld) (target_repo : String) (pr_number : Nat)
    (labels : List String) (dry_run : Bool) : List Effect :=
  let target_repo_labels := w.definedLabels target_repo
  let labels_to_apply := labels.filter (fun l => decide (l ∈ target_repo_labels))
  if dry_run then [] else [Effect.addLabels target_repo pr_number labels_to_apply]

end GitHubCLIClient

/-- The `for entry in entries` loop of `pr_fanout_sync_labels.sync_labels`
(lines 46-56): skip entries without a mirrored PR; otherwise filter the
source labels by the sub-repo's defined vocabulary and hand them to
`GitHubCLIClient.sync_labels`. -/
def syncLabelsEntriesLoop (w : LabelWorld) (source_labels : List String)
    (pr_number : Nat) (dry_run : Bool) : List RepoEntry → List Effect
  | [] => []
  | entry :: rest =>
    let branch := fanoutBranchName pr_number entry.name
    match w.openPR entry.url branch with
    | none => syncLabelsEntriesLoop w source_labels pr_number dry_run rest
    | some existing_pr =>
      let defined_labels := w.definedLabels entry.url
      let applicable_labels := source_labels.filter (fun l => decide (l ∈ defined_labels))
      GitHubCLIClient.sync_labels w entry.url existing_pr applicable_labels dry_run ++
        syncLabelsEntriesLoop w source_labels pr_number dry_run rest

/-- `pr_fanout_sync_labels.sync_labels` (lines 42-56): read the monorepo
PR's labels once, then process each entry. -/
def sync_labels (w : LabelWorld) (monorepo : String) (pr_number : Nat)
    (entries : List RepoEntry) (dry_run : Bool) : List Effect :=
  syncLabelsEntriesLoop w (w.prLabels monorepo pr_number) pr_number dry_run entries

/-- GitHub's semantics of the mutating label call: POST
`issues/{pr}/labels` / `gh pr edit --add-label` adds the given labels to the
PR's current set; other effects leave label state alone. -/
def applyLabelEffect (prLabels : String → Nat → List String) :
    Effect → (String → Nat → List String)
  | Effect.addLabels repo pr labels =>
    fun r p => if r = repo ∧ p = pr then prLabels r p ++ labels else prLabels r p
  | _ => prLabels

/-- Apply a trace of effects to the label state. -/
def applyLabelTrace (prLabels : String → Nat → List String) (effs : List Effect) :
    String → Nat → List String :=
  effs.foldl applyLabelEffect prLabels

/-- Python `str.split(sep)` for a one-character separator, over the
character list: `"".split("/") == [""]`, `"a//b".split("/") == ["a","","b"]`. -/
def splitOnChar (sep : Char) : List Char → List (List Char)
  | [] => [[]]
  | c :: rest =>
    if c = sep then [] :: splitOnChar sep rest
    else
      match splitOnChar sep rest with
      | [] => [[c]]
      | h :: t => (c :: h) :: t

/-- Python `path.split("/")`. -/
def pySplitSlash (s : String) : List String :=
  (splitOnChar '/' s.data).map List.asString

/-- Python `"/".join(parts)`. -/
def joinSlash (parts : List String) : String :=
  String.intercalate "/" parts

/-- Python `path.split("/", 2)`: at most two splits, the remainder stays
joined. -/
def pySplitSlashMax2 (s : String) : List String :=
  match pySplitSlash s with
  | a :: b :: c :: rest => [a, b, joinSlash (c :: rest)]
  | l => l

/-- Python `s.split("/", 1)`: at most one split. -/
def pySplitSlashMax1 (s : String) : List String :=
  match pySplitSlash s with
  | a :: b :: rest => [a, joinSlash (b :: rest)]
  | l => l

/-- `pr_detect_changed_subtrees.find_matched_subtrees` lines 66-70, per
path: `"/".join(path.split("/", 2)[:2])`. -/
def candidateSubtree (path : String) : String :=
  joinSlash ((pySplitSlashMax2 path).take 2)

/-- `pr_detect_changed_subtrees.find_matched_subtrees` line 71, per matched
candidate: `prefix.split("/", 1)[1]`.  Python raises IndexError when the
argument has no slash; that case is unreachable here since every candidate
kept by the guard `len(path.split("/")) >= 2` contains a slash, and is mapped
to `""`. -/
def subtreeNameOf (pfx : String) : String :=
  match pySplitSlashMax1 pfx with
  | _ :: b :: _ => b
  | _ => ""

/-- Python's string comparison on character lists: lexicographic by code
point. -/
def charListLe : List Char → List Char → Bool
  | [], _ => true
  | _ :: _, [] => false
  | a :: as, b :: bs =>
    if a < b then true
    else if b < a then false
    else charListLe as bs

/-- Python `a <= b` on strings. -/
def pyStrLe (a b : String) : Bool :=
  charListLe a.data b.data

/-- Insert into a sorted list, for `insertionSortBool`. -/
def orderedInsertBool (le : String → String → Bool) (a : String) :
    List String → List String
  | [] => [a]
  | b :: l => if le a b then a :: b :: l else b :: orderedInsertBool le a l

/-- Python `sorted`, modelled as insertion sort with a boolean comparator
(proved below to agree with Mathlib's `List.insertionSort` on `≤`). -/
def insertionSortBool (le : String → String → Bool) : List String → List String
  | [] => []
  | a :: l => orderedInsertBool le a (insertionSortBool le l)

/-- `pr_detect_changed_subtrees.find_matched_subtrees` (lines 64-73): the
set of two-segment candidates of paths with at least two segments,
intersected with the valid prefixes, names extracted, sorted.  Python sets
are modelled as deduplicated lists; `sorted` as `insertionSortBool` on
Python's string order. -/
def find_matched_subtrees (changed_files : List String)
    (valid_prefixes : List String) : List String :=
  let changed_subtrees :=
    ((changed_files.filter (fun path => decide (2 ≤ (pySplitSlash path).length))).map
      candidateSubtree).dedup
  let matched := changed_subtrees.filter (fun pfx => decide (pfx ∈ valid_prefixes))
  insertionSortBool pyStrLe (matched.map subtreeNameOf)

/-- Decimal decoding of a digit string: the left inverse of `Nat.repr` used
to prove branch names parse unambiguously. -/
def decodeDigits (l : List Char) : Nat :=
  l.foldl (fun a c => 10 * a + (c.toNat - 48)) 0

/-- Test fixture: the rocBLAS subtree entry of the examples in the spec. -/
def entryRocBLAS : RepoEntry :=
  { category := "projects", name := "rocBLAS", url := "ROCm/rocBLAS", branch := "develop" }

/-- Test fixture: the rocSPARSE subtree entry of the examples in the spec. -/
def entryRocSPARSE : RepoEntry :=
  { category := "shared", name := "rocSPARSE", url := "ROCm/rocSPARSE", branch := "develop" }

/-- Test fixture: a world where the mirrored PR for monorepo PR 123 and
subtree rocBLAS is already open (as PR 7, with a title and body that differ
from the derived ones), and pushes and creations would succeed. -/
def fanoutWorldExisting : FanoutWorld :=
  { pushOk := fun _ _ => true
    createOk := fun _ _ => true
    openPR := fun r h =>
      if r = "ROCm/rocBLAS" ∧ h = "monorepo-pr-123-rocBLAS" then
        some { number := 7, title := "custom title", body := "custom body" }
      else none
    nextNumber := 8 }

/-- Test fixture: a world where the subtree push to rocBLAS fails and
everything else would succeed; no mirrored PR is open anywhere. -/
def fanoutWorldPushFails : FanoutWorld :=
  { pushOk := fun url _ => decide (url ≠ subrepoFullUrl "ROCm/rocBLAS")
    createOk := fun _ _ => true
    openPR := fun _ _ => none
    nextNumber := 8 }

/-- Test fixture: a world where pushes succeed but every PR creation fails;
no mirrored PR is open anywhere. -/
def fanoutWorldCreateFails : FanoutWorld :=
  { pushOk := fun _ _ => true
    createOk := fun _ _ => false
    openPR := fun _ _ => none
    nextNumber := 8 }

/-- Test fixture: an upstream check run on the mirrored PR, completed with
success. -/
def checkBuildUpstream : CheckRun :=
  { name := "build", status := "completed", conclusion := some (some "success")
    details_url := some (some "https://ci.example/run/1")
    output := some { summary := some (some "ok") } }

/-- Test fixture: the synthetic check already on the monorepo PR, identical
in status, conclusion and summary to `checkBuildUpstream`. -/
def checkBuildSyntheticSame : CheckRun :=
  { name := "rocBLAS: build", status := "completed", conclusion := some (some "success")
    details_url := some (some "https://ci.example/run/1")
    output := some { summary := some (some "ok") } }

/-- Test fixture: the synthetic check already on the monorepo PR, with a
stale status (still in progress upstream-finished). -/
def checkBuildSyntheticStale : CheckRun :=
  { name := "rocBLAS: build", status := "in_progress", conclusion := some (some "success")
    details_url := some (some "https://ci.example/run/1")
    output := some { summary := some (some "ok") } }

/-- Test fixture: an upstream check run still in progress, with the JSON
null conclusion GitHub serves for unfinished runs. -/
def checkInProgress : CheckRun :=
  { name := "build", status := "in_progress", conclusion := some none
    details_url := some (some "https://ci.example/run/2")
    output := some { summary := some none } }

/-- Test fixture: a reflect-world where the mirrored rocBLAS PR exists on
the slash-template branch with one completed upstream check, and the
synthetic check on the monorepo PR is identical to it. -/
def reflectWorldSame : ReflectWorld :=
  { monorepoChecks := [checkBuildSyntheticSame]
    openPR := fun r h =>
      if r = "ROCm/rocBLAS" ∧ h = compute_branch_name 123 "rocBLAS" then
        some { number := 7, title := "mirror title", body := "mirror body" }
      else none
    checkRunsFor := fun r h =>
      if r = "ROCm/rocBLAS" ∧ h = compute_branch_name 123 "rocBLAS" then
        [checkBuildUpstream]
      else [] }

/-- Test fixture: as `reflectWorldSame`, but the existing synthetic check
differs from the fetched one in its status. -/
def reflectWorldStale : ReflectWorld :=
  { monorepoChecks := [checkBuildSyntheticStale]
    openPR := fun r h =>
      if r = "ROCm/rocBLAS" ∧ h = compute_branch_name 123 "rocBLAS" then
        some { number := 7, title := "mirror title", body := "mirror body" }
      else none
    checkRunsFor := fun r h =>
      if r = "ROCm/rocBLAS" ∧ h = compute_branch_name 123 "rocBLAS" then
        [checkBuildUpstream]
      else [] }

/-- Test fixture: a label world whose monorepo PR 123 carries labels
bug, enhancement and monorepo-only; the rocBLAS sub-repo defines bug,
enhancement and p1, its mirrored PR 7 currently carries p1 and is open on
the dash-template branch. -/
def labelWorldExample : LabelWorld :=
  { prLabels := fun r p =>
      if r = "ROCm/rocm-libraries" ∧ p = 123 then ["bug", "enhancement", "monorepo-only"]
      else if r = "ROCm/rocBLAS" ∧ p = 7 then ["p1"]
      else []
    definedLabels := fun r => if r = "ROCm/rocBLAS" then ["bug", "enhancement", "p1"] else []
    openPR := fun r h =>
      if r = "ROCm/rocBLAS" ∧ h = "monorepo-pr-123-rocBLAS" then some 7 else none }

theorem digitChar_isDigit (m : Nat) (h : m < 10) : (Nat.digitChar m).isDigit = true := by
  interval_cases m <;> decide

theorem digitChar_toNat (m : Nat) (h : m < 10) : (Nat.digitChar m).toNat - 48 = m := by
  interval_cases m <;> decide

theorem toDigitsCore_isDigit (fuel : Nat) :
    ∀ (n : Nat) (ds : List Char), (∀ c ∈ ds, c.isDigit = true) →
      ∀ c ∈ Nat.toDigitsCore 10 fuel n ds, c.isDigit = true := by
  induction fuel with
  | zero => intro n ds h c hc; exact h c hc
  | succ fuel ih =>
    intro n ds h c hc
    rw [Nat.toDigitsCore] at hc
    by_cases h0 : n / 10 = 0
    · simp only [h0, if_pos] at hc
      rcases List.mem_cons.mp hc with rfl | hc
      · exact digitChar_isDigit _ (Nat.mod_lt _ (by norm_num))
      · exact h c hc
    · simp only [h0, if_neg, if_false] at hc
      refine ih (n / 10) (Nat.digitChar (n % 10) :: ds) ?_ c hc
      intro c' hc'
      rcases List.mem_cons.mp hc' with rfl | hc'
      · exact digitChar_isDigit _ (Nat.mod_lt _ (by norm_num))
      · exact h c' hc'

theorem toDigitsCore_decode (fuel : Nat) :
    ∀ (n : Nat) (ds : List Char), n < fuel →
      (Nat.toDigitsCore 10 fuel n ds).foldl (fun a c => 10 * a + (c.toNat - 48)) 0 =
        ds.foldl (fun a c => 10 * a + (c.toNat - 48)) n := by
  induction fuel with
  | zero => intro n ds h; exact absurd h (Nat.not_lt_zero n)
  | succ fuel ih =>
    intro n ds h
    rw [Nat.toDigitsCore]
    by_cases h0 : n / 10 = 0
    · simp only [h0, if_pos, List.foldl_cons]
      rw [digitChar_toNat _ (Nat.mod_lt _ (by norm_num))]
      congr 1
      omega
    · simp only [h0, if_neg, if_false]
      have hfuel : n / 10 < fuel := by omega
      rw [ih (n / 10) (Nat.digitChar (n % 10) :: ds) hfuel, List.foldl_cons]
      rw [digitChar_toNat _ (Nat.mod_lt _ (by norm_num))]
      congr 1
      omega

theorem decodeDigits_repr (n : Nat) : decodeDigits (Nat.repr n).data = n := by
  have h : (Nat.repr n).data = Nat.toDigitsCore 10 (n + 1) n [] := rfl
  rw [decodeDigits, h, toDigitsCore_decode (n + 1) n [] (Nat.lt_succ_self n)]
  rfl

theorem repr_data_ne_slash (n : Nat) : ∀ c ∈ (Nat.repr n).data, c ≠ '/' := by
  intro c hc he
  have hd := toDigitsCore_isDigit (n + 1) n [] (by simp) c hc
  rw [he] at hd
  exact absurd hd (by decide)

theorem nat_repr_data_inj (m n : Nat) (h : (Nat.repr m).data = (Nat.repr n).data) :
    m = n := by
  have h2 := congrArg decodeDigits h
  rwa [decodeDigits_repr, decodeDigits_repr] at h2

theorem append_sep_inj (sep : Char) :
    ∀ (d₁ d₂ s₁ s₂ : List Char), (∀ c ∈ d₁, c ≠ sep) → (∀ c ∈ d₂, c ≠ sep) →
      d₁ ++ sep :: s₁ = d₂ ++ sep :: s₂ → d₁ = d₂ ∧ s₁ = s₂ := by
  intro d₁
  induction d₁ with
  | nil =>
    intro d₂ s₁ s₂ _ h₂ he
    cases d₂ with
    | nil => exact ⟨rfl, by simpa using he⟩
    | cons c t =>
      rw [List.nil_append, List.cons_append] at he
      injection he with h1 _
      exact absurd h1.symm (h₂ c (List.mem_cons_self c t))
  | cons c t ih =>
    intro d₂ s₁ s₂ h₁ h₂ he
    cases d₂ with
    | nil =>
      rw [List.cons_append, List.nil_append] at he
      injection he with h1 _
      exact absurd h1 (h₁ c (List.mem_cons_self c t))
    | cons c' t' =>
      rw [List.cons_append, List.cons_append] at he
      injection he with h1 h2
      obtain ⟨ha, hb⟩ := ih t' s₁ s₂ (fun x hx => h₁ x (List.mem_cons_of_mem c hx))
        (fun x hx => h₂ x (List.mem_cons_of_mem c' hx)) h2
      exact ⟨by rw [h1, ha], hb⟩

theorem string_data_append (a b : String) : (a ++ b).data = a.data ++ b.data := by
  cases a; cases b; rfl

/-- C1: the branch-name templates do NOT agree across scripts.  The fanout
driver (and close-cleanup and label sync) inline the dash template
`monorepo-pr-{pr}-{name}`, while the check reflector derives the branch via
`FanoutNaming.compute_branch_name`, the slash template
`monorepo-pr/{pr}/{name}`.  At pr 123 and subtree rocBLAS the two strings
differ, so the reflector's PR lookup can never find the branch the fanout
driver pushed. -/
theorem branch_template_mismatch :
    fanoutBranchName 123 "rocBLAS" = "monorepo-pr-123-rocBLAS" ∧
    compute_branch_name 123 "rocBLAS" = "monorepo-pr/123/rocBLAS" ∧
    fanoutBranchName 123 "rocBLAS" ≠ compute_branch_name 123 "rocBLAS" := by
  exact ⟨rfl, rfl, by decide⟩

/-- C9: `compute_branch_name` is deterministic (a pure function: identical
inputs give the identical string) and injective on positive PR numbers and
non-empty subtree names: the decimal PR number contains no slash, so the
first slash after the fixed prefix delimits it unambiguously. -/
theorem compute_branch_name_deterministic_injective :
    (∀ (pr : Nat) (name : String),
      compute_branch_name pr name = compute_branch_name pr name) ∧
    ∀ (pr₁ : Nat) (n₁ : String) (pr₂ : Nat) (n₂ : String),
      0 < pr₁ → 0 < pr₂ → n₁ ≠ "" → n₂ ≠ "" →
      compute_branch_name pr₁ n₁ = compute_branch_name pr₂ n₂ →
      pr₁ = pr₂ ∧ n₁ = n₂ := by
  refine ⟨fun _ _ => rfl, ?_⟩
  intro pr₁ n₁ pr₂ n₂ _ _ _ _ he
  have hd := congrArg String.data he
  simp only [compute_branch_name, string_data_append, List.append_assoc,
    List.singleton_append] at hd
  have hc := List.append_cancel_left hd
  obtain ⟨hr, hn⟩ := append_sep_inj '/' _ _ _ _ (repr_data_ne_slash pr₁)
    (repr_data_ne_slash pr₂) hc
  exact ⟨nat_repr_data_inj _ _ hr, String.ext hn⟩

/-- Witness for C9's theorem at pr 5 and name rocBLAS. -/
theorem compute_branch_name_deterministic_injective_witness :
    5 = 5 ∧ "rocBLAS" = "rocBLAS" :=
  compute_branch_name_deterministic_injective.2 5 "rocBLAS" 5 "rocBLAS"
    (by decide) (by decide) (by decide) (by decide) rfl

/-- C2 fails on the code: `pr_close_fanouts.main` parses `--dry-run` but
never consults it (and `GitHubAPIClient.close_pr_and_delete_branch` has no
dry-run parameter), so with dry-run set and one configured subtree whose
mirrored PR (number 7) is open, the run still issues the mutating close and
branch-delete calls.  The second conjunct shows the dry-run flag has no
influence on the close-fanouts behaviour at all. -/
theorem close_fanouts_dry_run_still_mutates :
    closeFanoutsMain 123
      [{ category := "projects", name := "rocBLAS", url := "ROCm/rocBLAS",
         branch := "develop" }]
      true
      (fun r h =>
        if r = "ROCm/rocBLAS" ∧ h = "monorepo-pr-123-rocBLAS" then
          some { number := 7, title := "mirror title", body := "mirror body" }
        else none) =
      [Effect.prClose "ROCm/rocBLAS" 7, Effect.deleteRef "ROCm/rocBLAS" "7"] ∧
    (∀ (pr : Nat) (config : List RepoEntry)
      (openPR : String → String → Option PRView) (d₁ d₂ : Bool),
      closeFanoutsLoop pr d₁ config openPR = closeFanoutsLoop pr d₂ config openPR) := by
  constructor
  · decide
  · intro pr config
    induction config with
    | nil => intro openPR d₁ d₂; rfl
    | cons e rest ih =>
      intro openPR d₁ d₂
      simp only [closeFanoutsLoop]
      cases h : openPR e.url (fanoutBranchName pr e.name) with
      | some prv =>
        dsimp only
        exact congrArg _ (ih _ d₁ d₂)
      | none =>
        dsimp only
        exact ih _ d₁ d₂

/-- C5 fails on the code: when the monorepo PR closes, the cleanup script
does close the mirrored PR, but `close_pr_and_delete_branch` then deletes
`git/refs/heads/{pr_number}` — the ref named by the decimal PR number ("7"),
not the derived branch `monorepo-pr-123-rocBLAS` — so the fanout branch
survives.  The subtree without an open mirrored PR (rocSPARSE) is skipped
without error, contributing no effects. -/
theorem close_fanouts_deletes_wrong_ref :
    closeFanoutsMain 123
      [{ category := "projects", name := "rocBLAS", url := "ROCm/rocBLAS",
         branch := "develop" },
       { category := "shared", name := "rocSPARSE", url := "ROCm/rocSPARSE",
         branch := "develop" }]
      false
      (fun r h =>
        if r = "ROCm/rocBLAS" ∧ h = "monorepo-pr-123-rocBLAS" then
          some { number := 7, title := "mirror title", body := "mirror body" }
        else none) =
      [Effect.prClose "ROCm/rocBLAS" 7, Effect.deleteRef "ROCm/rocBLAS" "7"] ∧
    Effect.deleteRef "ROCm/rocBLAS" (fanoutBranchName 123 "rocBLAS") ∉
      closeFanoutsMain 123
        [{ category := "projects", name := "rocBLAS", url := "ROCm/rocBLAS",
           branch := "develop" },
         { category := "shared", name := "rocSPARSE", url := "ROCm/rocSPARSE",
           branch := "develop" }]
        false
        (fun r h =>
          if r = "ROCm/rocBLAS" ∧ h = "monorepo-pr-123-rocBLAS" then
            some { number := 7, title := "mirror title", body := "mirror body" }
          else none) ∧
    "7" ≠ fanoutBranchName 123 "rocBLAS" := by
  exact ⟨by decide, by decide, by decide⟩

theorem fanoutLoop_existing_pr (repo : String) (pr : Nat) :
    ∀ (es : List RepoEntry) (w : FanoutWorld),
      (∀ entry ∈ es, (w.openPR entry.url (fanoutBranchName pr entry.name)).isSome = true) →
      (fanoutLoop repo pr false es w).2.2 = w ∧
      ∀ eff ∈ (fanoutLoop repo pr false es w).1, eff.isCreate = false := by
  intro es
  induction es with
  | nil =>
    intro w _
    exact ⟨rfl, by intro eff h; simp [fanoutLoop] at h⟩
  | cons e rest ih =>
    intro w hw
    have he := hw e (List.mem_cons_self e rest)
    obtain ⟨ih1, ih2⟩ := ih w (fun x hx => hw x (List.mem_cons_of_mem e hx))
    by_cases hp : w.pushOk (subrepoFullUrl e.url) (fanoutBranchName pr e.name) = true
    · have hstep : fanoutEntryStep repo pr false e w =
          ([Effect.subtreePush (subrepoFullUrl e.url) (fanoutBranchName pr e.name)],
           none, w) := by
        simp [fanoutEntryStep, subtree_push, hp, he]
      rw [fanoutLoop, hstep]
      constructor
      · simpa using ih1
      · intro eff heff
        simp only at heff
        rcases List.mem_cons.mp heff with rfl | heff2
        · rfl
        · exact ih2 eff (by simpa using heff2)
    · have hstep : fanoutEntryStep repo pr false e w =
          ([], some PyError.calledProcessError, w) := by
        simp [fanoutEntryStep, subtree_push, hp]
      rw [fanoutLoop, hstep]
      exact ⟨rfl, by intro eff h; simp at h⟩

/-- C3 amended: when an open PR already exists for the derived branch, the
fanout driver creates no new PR and leaves the existing PR entirely
untouched — it does NOT update the title and body in place (there is no
update call in `pr_fanout.main`; when `pr_view` finds a PR, the iteration
simply ends).  Hence running the fanout step twice with no intervening
change leaves the same single open PR with unchanged title and body, and
the second run behaves exactly like the first. -/
theorem fanout_existing_pr_skipped_untouched :
    ∀ (repo : String) (pr : Nat) (subtrees : List String) (config : List RepoEntry)
      (w : FanoutWorld),
      (∀ entry ∈ get_subtree_info config subtrees,
        (w.openPR entry.url (fanoutBranchName pr entry.name)).isSome = true) →
      (fanoutMain repo pr subtrees config false w).2.2 = w ∧
      (∀ eff ∈ (fanoutMain repo pr subtrees config false w).1, eff.isCreate = false) ∧
      fanoutMain repo pr subtrees config false
          (fanoutMain repo pr subtrees config false w).2.2 =
        fanoutMain repo pr subtrees config false w := by
  intro repo pr subtrees config w hw
  obtain ⟨h1, h2⟩ := fanoutLoop_existing_pr repo pr (get_subtree_info config subtrees) w hw
  exact ⟨h1, h2, by rw [show (fanoutMain repo pr subtrees config false w).2.2 = w from h1]⟩

/-- Witness for C3's amended theorem: one configured subtree whose mirrored
PR (number 7) is already open. -/
theorem fanout_existing_pr_skipped_untouched_witness :
    (fanoutMain "ROCm/rocm-libraries" 123 ["projects/rocBLAS"] [entryRocBLAS] false
      fanoutWorldExisting).2.2 = fanoutWorldExisting ∧
    (∀ eff ∈ (fanoutMain "ROCm/rocm-libraries" 123 ["projects/rocBLAS"] [entryRocBLAS]
      false fanoutWorldExisting).1, eff.isCreate = false) ∧
    fanoutMain "ROCm/rocm-libraries" 123 ["projects/rocBLAS"] [entryRocBLAS] false
        (fanoutMain "ROCm/rocm-libraries" 123 ["projects/rocBLAS"] [entryRocBLAS] false
          fanoutWorldExisting).2.2 =
      fanoutMain "ROCm/rocm-libraries" 123 ["projects/rocBLAS"] [entryRocBLAS] false
        fanoutWorldExisting :=
  fanout_existing_pr_skipped_untouched "ROCm/rocm-libraries" 123 ["projects/rocBLAS"]
    [entryRocBLAS] fanoutWorldExisting (by decide)

/-- C3 as stated is false on the code: with the mirrored PR for
(pr 123, rocBLAS) open under a custom title and body, a live fanout run
leaves them unchanged — they are not updated in place to the derived title
and body as the claim asserts. -/
theorem fanout_no_inplace_update_counterexample :
    (fanoutMain "ROCm/rocm-libraries" 123 ["projects/rocBLAS"] [entryRocBLAS] false
      fanoutWorldExisting).2.2.openPR "ROCm/rocBLAS" "monorepo-pr-123-rocBLAS" =
      some { number := 7, title := "custom title", body := "custom body" } ∧
    "custom title" ≠ fanoutPrTitle 123 "rocBLAS" ∧
    "custom body" ≠ fanoutPrBody 123 "projects" "rocBLAS" "ROCm/rocm-libraries" := by
  exact ⟨by decide, by decide, by decide⟩

/-- C4 amended: a failed subtree push or PR creation does NOT leave the
remaining subtrees processed — the `CalledProcessError` propagates out of the
loop in `pr_fanout.main` (which has no try/except) and aborts the whole run:
whatever follows the failing entry contributes no effects, for every
remaining list of subtrees. -/
theorem fanout_failure_aborts_rest :
    (∀ (repo : String) (pr : Nat) (entry : RepoEntry) (rest : List RepoEntry)
      (w : FanoutWorld),
      w.pushOk (subrepoFullUrl entry.url) (fanoutBranchName pr entry.name) = false →
      fanoutLoop repo pr false (entry :: rest) w =
        ([], some PyError.calledProcessError, w)) ∧
    (∀ (repo : String) (pr : Nat) (entry : RepoEntry) (rest : List RepoEntry)
      (w : FanoutWorld),
      w.pushOk (subrepoFullUrl entry.url) (fanoutBranchName pr entry.name) = true →
      w.openPR entry.url (fanoutBranchName pr entry.name) = none →
      w.createOk entry.url (fanoutBranchName pr entry.name) = false →
      fanoutLoop repo pr false (entry :: rest) w =
        ([Effect.subtreePush (subrepoFullUrl entry.url) (fanoutBranchName pr entry.name)],
         some PyError.calledProcessError, w)) := by
  constructor
  · intro repo pr entry rest w hp
    have hstep : fanoutEntryStep repo pr false entry w =
        ([], some PyError.calledProcessError, w) := by
      simp [fanoutEntryStep, subtree_push, hp]
    rw [fanoutLoop, hstep]
  · intro repo pr entry rest w hp ho hc
    have hstep : fanoutEntryStep repo pr false entry w =
        ([Effect.subtreePush (subrepoFullUrl entry.url) (fanoutBranchName pr entry.name)],
         some PyError.calledProcessError, w) := by
      simp [fanoutEntryStep, subtree_push, hp, ho, hc]
    rw [fanoutLoop, hstep]

/-- Witness for C4's amended theorem: a failing push (first conjunct) and a
failing PR creation (second conjunct), each with a remaining subtree that is
never reached. -/
theorem fanout_failure_aborts_rest_witness :
    fanoutLoop "ROCm/rocm-libraries" 123 false [entryRocBLAS, entryRocSPARSE]
        fanoutWorldPushFails =
      ([], some PyError.calledProcessError, fanoutWorldPushFails) ∧
    fanoutLoop "ROCm/rocm-libraries" 123 false [entryRocBLAS, entryRocSPARSE]
        fanoutWorldCreateFails =
      ([Effect.subtreePush (subrepoFullUrl "ROCm/rocBLAS") (fanoutBranchName 123 "rocBLAS")],
       some PyError.calledProcessError, fanoutWorldCreateFails) :=
  ⟨fanout_failure_aborts_rest.1 "ROCm/rocm-libraries" 123 entryRocBLAS [entryRocSPARSE]
      fanoutWorldPushFails (by decide),
   fanout_failure_aborts_rest.2 "ROCm/rocm-libraries" 123 entryRocBLAS [entryRocSPARSE]
      fanoutWorldCreateFails (by decide) (by decide) (by decide)⟩

/-- C4 as stated is false on the code: with two requested subtrees and the
push for the first (rocBLAS) failing, the run raises and the second subtree
(rocSPARSE) is never processed — no effect for it appears in the trace,
which is empty. -/
theorem fanout_failure_not_isolated_counterexample :
    (fanoutMain "ROCm/rocm-libraries" 123 ["projects/rocBLAS", "shared/rocSPARSE"]
      [entryRocBLAS, entryRocSPARSE] false fanoutWorldPushFails).1 = [] ∧
    (fanoutMain "ROCm/rocm-libraries" 123 ["projects/rocBLAS", "shared/rocSPARSE"]
      [entryRocBLAS, entryRocSPARSE] false fanoutWorldPushFails).2.1 =
      some PyError.calledProcessError ∧
    Effect.subtreePush (subrepoFullUrl "ROCm/rocSPARSE") (fanoutBranchName 123 "rocSPARSE") ∉
      (fanoutMain "ROCm/rocm-libraries" 123 ["projects/rocBLAS", "shared/rocSPARSE"]
        [entryRocBLAS, entryRocSPARSE] false fanoutWorldPushFails).1 := by
  exact ⟨by decide, by decide, by decide⟩

/-- C6 fails on the code: the no-write half holds (first conjunct: with the
existing synthetic check identical in status, conclusion and summary, no
call is issued), but when a field differs the claimed "exactly one upsert
call" never happens — `pr_reflect_checks.main` lines 85-88 pass seven
positional arguments to `GitHubAPIClient.upsert_check_run`, which requires
nine (repo, name, sha, status, details_url, conclusion, completed_at, title,
summary), so Python raises `TypeError` before any write and the run aborts
with zero upsert calls (second conjunct).  The last two conjuncts record the
arity mismatch itself. -/
theorem reflect_upsert_arity_bug :
    reflectMain "ROCm/rocm-libraries" 123 [entryRocBLAS] false reflectWorldSame =
      ([], none) ∧
    reflectMain "ROCm/rocm-libraries" 123 [entryRocBLAS] false reflectWorldStale =
      ([], some PyError.typeError) ∧
    upsertCheckRunParamCount = 9 ∧
    (reflectUpsertArgs "ROCm/rocm-libraries" "rocBLAS: build" 123 "completed"
      (some "https://ci.example/run/1") (some "success") (some "ok")).length = 7 := by
  exact ⟨by decide, by decide, rfl, rfl⟩

/-- C7: for an upstream check run still in progress (status not
"completed", conclusion absent or JSON null), the check-run payload built by
`_generate_check_run_payload` from the values `pr_reflect_checks.main`
extracts carries a fixed placeholder conclusion — the empty string — and in
particular never a null or missing conclusion field.  (The extraction
default "neutral" of line 70 fires only for an absent key; either way the
payload coerces the conclusion of a non-completed run to `""`.) -/
theorem reflected_conclusion_well_formed :
    ∀ (check : CheckRun) (nm sha : String) (completed_at title : Option String),
      check.status ≠ "completed" →
      (check.conclusion = none ∨ check.conclusion = some none) →
      (generate_check_run_payload nm sha check.status (pyGetD check.details_url "")
          (pyGetD check.conclusion "neutral") completed_at title
          (checkSummary check)).conclusion = some "" ∧
      (generate_check_run_payload nm sha check.status (pyGetD check.details_url "")
          (pyGetD check.conclusion "neutral") completed_at title
          (checkSummary check)).conclusion ≠ none := by
  intro check nm sha completed_at title hstatus _
  constructor
  · simp [generate_check_run_payload, hstatus]
  · simp [generate_check_run_payload, hstatus]

/-- Witness for C7's theorem: an in-progress check with a JSON null
conclusion. -/
theorem reflected_conclusion_well_formed_witness :
    (generate_check_run_payload "rocBLAS: build" "3a7f00d" checkInProgress.status
        (pyGetD checkInProgress.details_url "") (pyGetD checkInProgress.conclusion "neutral")
        (some "") none (checkSummary checkInProgress)).conclusion = some "" ∧
    (generate_check_run_payload "rocBLAS: build" "3a7f00d" checkInProgress.status
        (pyGetD checkInProgress.details_url "") (pyGetD checkInProgress.conclusion "neutral")
        (some "") none (checkSummary checkInProgress)).conclusion ≠ none :=
  reflected_conclusion_well_formed checkInProgress "rocBLAS: build" "3a7f00d" (some "") none
    (by decide) (Or.inr (by decide))

theorem charListLe_iff_lex (as : List Char) :
    ∀ bs, charListLe as bs = true ↔ ¬ List.Lex (· < ·) bs as := by
  induction as with
  | nil =>
    intro bs
    constructor
    · intro _ h
      cases h
    · intro _
      rfl
  | cons a as ih =>
    intro bs
    cases bs with
    | nil =>
      simp only [charListLe]
      exact iff_of_false (by simp) (not_not_intro List.Lex.nil)
    | cons b bs =>
      simp only [charListLe]
      by_cases hab : a < b
      · rw [if_pos hab]
        refine iff_of_true rfl ?_
        intro h
        cases h with
        | cons h1 => exact absurd hab (lt_irrefl a)
        | rel h2 => exact absurd h2 (lt_asymm hab)
      · by_cases hba : b < a
        · rw [if_neg hab, if_pos hba]
          exact iff_of_false (by simp) (not_not_intro (List.Lex.rel hba))
        · have hco : a = b := le_antisymm (not_lt.mp hba) (not_lt.mp hab)
          subst hco
          rw [if_neg hab, if_neg hba, ih bs]
          constructor
          · intro h hl
            cases hl with
            | cons h1 => exact absurd h1 h
            | rel h2 => exact absurd h2 hba
          · intro h hl
            exact h (List.Lex.cons hl)

theorem pyStrLe_iff (a b : String) : pyStrLe a b = true ↔ a ≤ b := by
  show charListLe a.data b.data = true ↔ ¬ b < a
  rw [String.lt_iff_toList_lt]
  exact charListLe_iff_lex a.data b.data

theorem orderedInsertBool_eq (a : String) (l : List String) :
    orderedInsertBool pyStrLe a l = List.orderedInsert (· ≤ ·) a l := by
  induction l with
  | nil => rfl
  | cons b l ih =>
    simp only [orderedInsertBool, List.orderedInsert]
    by_cases h : a ≤ b
    · rw [if_pos ((pyStrLe_iff a b).mpr h), if_pos h]
    · rw [if_neg (fun hc => h ((pyStrLe_iff a b).mp hc)), if_neg h, ih]

theorem insertionSortBool_eq (l : List String) :
    insertionSortBool pyStrLe l = List.insertionSort (· ≤ ·) l := by
  induction l with
  | nil => rfl
  | cons a l ih =>
    simp only [insertionSortBool, List.insertionSort, ih, orderedInsertBool_eq]

theorem find_matched_subtrees_eq (files valid : List String) :
    find_matched_subtrees files valid =
      List.insertionSort (fun a b => a ≤ b)
        (((((files.filter (fun path => decide (2 ≤ (pySplitSlash path).length))).map
          candidateSubtree).dedup).filter (fun pfx => decide (pfx ∈ valid))).map
          subtreeNameOf) := by
  simp only [find_matched_subtrees]
  rw [insertionSortBool_eq]

/-- C8 amended: `find_matched_subtrees` returns the lexicographically
sorted list of subtree names obtained by stripping the leading category from
each matching two-segment prefix; the *prefixes* are deduplicated (they form
a set), but the stripped names are NOT deduplicated across categories —
distinct matched prefixes with different categories and the same name each
contribute the name once.  Paths with fewer than two segments and unmatched
prefixes contribute nothing, and the spec's example yields exactly
["rocBLAS", "rocSPARSE"]. -/
theorem find_matched_subtrees_spec :
    (∀ (files valid : List String),
      List.Sorted (fun a b => a ≤ b) (find_matched_subtrees files valid)) ∧
    (∀ (files valid : List String) (x : String),
      x ∈ find_matched_subtrees files valid ↔
        ∃ pfx, pfx ∈ valid ∧ subtreeNameOf pfx = x ∧
          ∃ p, p ∈ files ∧ 2 ≤ (pySplitSlash p).length ∧ candidateSubtree p = pfx) ∧
    find_matched_subtrees ["projects/rocBLAS/a.cpp", "shared/rocSPARSE/b.h", "README.md"]
      ["projects/rocBLAS", "shared/rocSPARSE"] = ["rocBLAS", "rocSPARSE"] := by
  refine ⟨?_, ?_, by decide⟩
  · intro files valid
    rw [find_matched_subtrees_eq]
    exact List.sorted_insertionSort _ _
  · intro files valid x
    rw [find_matched_subtrees_eq]
    rw [List.Perm.mem_iff (List.perm_insertionSort _ _)]
    simp only [List.mem_map, List.mem_filter, List.mem_dedup, decide_eq_true_eq]
    constructor
    · rintro ⟨pfx, ⟨⟨p, ⟨hp, hlen⟩, hc⟩, hv⟩, hn⟩
      exact ⟨pfx, hv, hn, p, hp, hlen, hc⟩
    · rintro ⟨pfx, hv, hn, p, hp, hlen, hc⟩
      exact ⟨pfx, ⟨⟨p, ⟨hp, hlen⟩, hc⟩, hv⟩, hn⟩

/-- C8 as stated is false on the code: the returned names are not
deduplicated.  With two changed paths under two different categories that
share the subtree name foo, and both prefixes valid, the output is
["foo", "foo"] — the name appears twice. -/
theorem find_matched_subtrees_not_dedup_counterexample :
    find_matched_subtrees ["projects/foo/a.cpp", "shared/foo/b.h"]
      ["projects/foo", "shared/foo"] = ["foo", "foo"] ∧
    ¬ (find_matched_subtrees ["projects/foo/a.cpp", "shared/foo/b.h"]
      ["projects/foo", "shared/foo"]).Nodup := by
  exact ⟨by decide, by decide⟩

/-- C10: label sync applies to the mirrored PR exactly the intersection of
the monorepo PR's current labels with the sub-repo's defined vocabulary
(the script filters by the vocabulary and `GitHubCLIClient.sync_labels`
intersects with it again), via `gh pr edit --add-label` — which only adds —
so the resulting label set of the mirrored PR is the old set united with
that intersection, and in particular a superset of the old set. -/
theorem label_sync_intersection_additive :
    ∀ (w : LabelWorld) (monorepo : String) (pr_number : Nat) (entry : RepoEntry) (n : Nat),
      w.openPR entry.url (fanoutBranchName pr_number entry.name) = some n →
      (∀ l, l ∈ applyLabelTrace w.prLabels
          (sync_labels w monorepo pr_number [entry] false) entry.url n ↔
        (l ∈ w.prLabels entry.url n ∨
          (l ∈ w.prLabels monorepo pr_number ∧ l ∈ w.definedLabels entry.url))) ∧
      (∀ l ∈ w.prLabels entry.url n,
        l ∈ applyLabelTrace w.prLabels
          (sync_labels w monorepo pr_number [entry] false) entry.url n) := by
  intro w monorepo pr_number entry n hopen
  have htrace : sync_labels w monorepo pr_number [entry] false =
      [Effect.addLabels entry.url n
        (((w.prLabels monorepo pr_number).filter
            (fun l => decide (l ∈ w.definedLabels entry.url))).filter
          (fun l => decide (l ∈ w.definedLabels entry.url)))] := by
    simp [sync_labels, syncLabelsEntriesLoop, hopen, GitHubCLIClient.sync_labels]
  rw [htrace]
  have hfin : ∀ l, l ∈ applyLabelTrace w.prLabels
      [Effect.addLabels entry.url n
        (((w.prLabels monorepo pr_number).filter
            (fun l => decide (l ∈ w.definedLabels entry.url))).filter
          (fun l => decide (l ∈ w.definedLabels entry.url)))] entry.url n ↔
      (l ∈ w.prLabels entry.url n ∨
        (l ∈ w.prLabels monorepo pr_number ∧ l ∈ w.definedLabels entry.url)) := by
    intro l
    simp [applyLabelTrace, applyLabelEffect, List.mem_filter]
  exact ⟨hfin, fun l hl => (hfin l).mpr (Or.inl hl)⟩

/-- Witness for C10's theorem: the fixture world where the intersection of
the monorepo PR's labels with rocBLAS's vocabulary is bug and enhancement. -/
theorem label_sync_intersection_additive_witness :
    (∀ l, l ∈ applyLabelTrace labelWorldExample.prLabels
        (sync_labels labelWorldExample "ROCm/rocm-libraries" 123 [entryRocBLAS] false)
        entryRocBLAS.url 7 ↔
      (l ∈ labelWorldExample.prLabels entryRocBLAS.url 7 ∨
        (l ∈ labelWorldExample.prLabels "ROCm/rocm-libraries" 123 ∧
          l ∈ labelWorldExample.definedLabels entryRocBLAS.url))) ∧
    (∀ l ∈ labelWorldExample.prLabels entryRocBLAS.url 7,
      l ∈ applyLabelTrace labelWorldExample.prLabels
        (sync_labels labelWorldExample "ROCm/rocm-libraries" 123 [entryRocBLAS] false)
        entryRocBLAS.url 7) :=
  label_sync_intersection_additive labelWorldExample "ROCm/rocm-libraries" 123
    entryRocBLAS 7 (by decide)
